import Mathlib

/-!
Verification development for `tools/wrap/wrap.py` of the ELL repository.

The script defines a class `ModuleBuilder` with a static argument table
(`ModuleBuilder.arguments`, wrap.py lines 49-184), a command-line parser
(`parse_command_line`, lines 218-297) built on argparse, and a driver
(`run`, lines 381-458) that invokes external tools in a fixed order.

The shallow embedding below models:
  - the parsed-argument record as a string-keyed association list (`Parsed`),
    mirroring the argparse `Namespace` object, with the defaults taken from
    the argument table;
  - the token-level behaviour of the argparse parser that the script
    constructs from its table: long flags (`--name`), short flags (`-s`),
    the `--name=value` form, `store_true` toggles, `choices` validation and
    the `int` type of `global_value_alignment`.  Long-option abbreviation
    and the extra flags added by `logger.add_logging_args` (code outside
    `src/`) are not modelled; no claim depends on them;
  - the assignment block of `parse_command_line` (lines 260-297) as
    `buildBuilder`, producing a `Builder` record of the configuration
    fields the script sets on `self`;
  - the effect trace of `run` (lines 381-458) as a list of `RunStep`
    values, with the external tools abstracted by a `ToolEnv` oracle;
  - the `__main__` block (lines 461-471) as `wrapMain`.

File-system queries are abstracted by an `isfile : String -> Bool` oracle.
The `os.path` helpers are modelled for POSIX path separators.
-/

deriving instance DecidableEq for Except

/-- Value stored for one destination in the parsed-argument record
(the argparse namespace holds `None`, strings, booleans and ints here). -/
inductive Val where
  | str (s : String)
  | boolv (b : Bool)
  | intv (n : Int)
  | nonev
  deriving DecidableEq, Repr, Inhabited

/-- The parsed-argument record: a string-keyed association list, newest
binding first (mirrors attribute assignment on the argparse namespace). -/
abbrev Parsed := List (String × Val)

/-- Read a destination from the parsed record (first binding wins). -/
def getv (p : Parsed) (k : String) : Val :=
  match p with
  | [] => .nonev
  | (k', v) :: rest => if k == k' then v else getv rest k

/-- Write a destination in the parsed record (shadowing cons). -/
def setv (p : Parsed) (k : String) (v : Val) : Parsed := (k, v) :: p

def getStr (p : Parsed) (k : String) (d : String) : String :=
  match getv p k with
  | .str s => s
  | _ => d

def getBool (p : Parsed) (k : String) : Bool :=
  match getv p k with
  | .boolv b => b
  | _ => false

def getInt (p : Parsed) (k : String) (d : Int) : Int :=
  match getv p k with
  | .intv n => n
  | _ => d

/-- Read a destination whose argparse default is `None`: `none` for the
`None` default, `some s` once a string was stored. -/
def getOptStr (p : Parsed) (k : String) : Option String :=
  match getv p k with
  | .str s => some s
  | _ => none

/-- Errors of `parse_command_line`: `usage` models an argparse error
(argparse prints usage and calls `sys.exit(2)`), `exc` models a raised
Python exception carrying its type name and message. -/
inductive ParseErr where
  | usage (msg : String)
  | exc (ty msg : String)
  deriving DecidableEq, Repr

/-- Structural test that the second character list begins with the first. -/
def startsWithL : List Char → List Char → Bool
  | [], _ => true
  | _ :: _, [] => false
  | c :: cs, d :: ds => (c == d) && startsWithL cs ds

/-- String begins-with test, evaluated structurally on the character lists
(same behaviour as the library one for the ASCII patterns used here). -/
def strStartsWith (s pat : String) : Bool := startsWithL pat.data s.data

/-- Split a token at its first `=` character (helper for the `--name=value`
argparse form; only applied to tokens starting with `--`). -/
def splitEqCore : List Char → List Char × Option (List Char)
  | [] => ([], none)
  | c :: cs =>
    if c = '=' then ([], some cs)
    else
      match splitEqCore cs with
      | (f, v) => (c :: f, v)

/-- Separate a command-line token into the flag part and an optional
inline `=value` part, as argparse does for long options. -/
def splitEq (t : String) : String × Option String :=
  if strStartsWith t "--" then
    match splitEqCore t.data with
    | (f, none) => (String.mk f, none)
    | (f, some v) => (String.mk f, some (String.mk v))
  else (t, none)

/-- Nonempty all-digit character list. -/
def isDigits (cs : List Char) : Bool := !cs.isEmpty && cs.all (·.isDigit)

/-- Split a character list at the first dot. -/
def splitDot : List Char → Option (List Char × List Char)
  | [] => none
  | c :: r =>
    if c = '.' then some ([], r)
    else
      match splitDot r with
      | none => none
      | some (a, b) => some (c :: a, b)

/-- Tokens matching the argparse negative-number patterns (a leading minus
followed by digits, or digits, dot, digits); argparse allows these as
option values because the parser has no numeric option strings. -/
def looksLikeNegNum (s : String) : Bool :=
  match s.data with
  | '-' :: rest =>
    isDigits rest ||
      (match splitDot rest with
       | some (ds, fs) => ds.all (·.isDigit) && isDigits fs
       | none => false)
  | _ => false

/-- A following token that argparse refuses to consume as an option value:
it starts with a dash, is not the bare dash, and does not look like a
negative number. -/
def looksLikeOption (s : String) : Bool :=
  strStartsWith s "-" && s != "-" && !looksLikeNegNum s

/-- Python `int()` digit-run check: digits with single underscores allowed
only between digits. -/
def digitsU : List Char → Bool
  | [] => true
  | '_' :: [] => false
  | '_' :: c :: rest => c.isDigit && digitsU rest
  | c :: rest => c.isDigit && digitsU rest

def digitsVal (cs : List Char) : Nat :=
  cs.foldl (fun acc c => acc * 10 + (c.toNat - 48)) 0

/-- Python `int(s)` for base 10: optional surrounding whitespace, optional
sign, then a digit run (underscores between digits allowed); `none` models
the `ValueError` that argparse turns into a usage error. -/
def pyParseInt? (s : String) : Option Int :=
  let cs := ((s.data.dropWhile Char.isWhitespace).reverse.dropWhile Char.isWhitespace).reverse
  let signAndDigits : Int × List Char :=
    match cs with
    | '-' :: rest => (-1, rest)
    | '+' :: rest => (1, rest)
    | _ => (1, cs)
  match signAndDigits with
  | (sign, ds) =>
    match ds with
    | [] => none
    | c :: rest =>
      if c.isDigit && digitsU rest then
        some (sign * Int.ofNat (digitsVal ((c :: rest).filter (fun x => x ≠ '_'))))
      else none

/-- Action of one entry of `ModuleBuilder.arguments` as argparse performs
it: `storeTrue` for the boolean toggles (lines 243-245 of wrap.py),
`storeStr` with optional `choices` for string options, `storeInt` for the
`type: int` option. -/
inductive FlagAction where
  | storeTrue
  | storeStr (choices : Option (List String))
  | storeInt
  deriving DecidableEq, Repr

/-- One table entry: the argparse destination plus its action. -/
structure FlagSpec where
  dest : String
  action : FlagAction
  deriving DecidableEq, Repr

/-- The argparse option-string table built by `parse_command_line` from
`ModuleBuilder.arguments` (wrap.py lines 49-184 and 231-248): each entry
registers the long flag `--name` and the short flag `-short`. -/
def flagSpec (f : String) : Option FlagSpec :=
  if f == "--model_file" || f == "-f" then some ⟨"model_file", .storeStr none⟩
  else if f == "--module_name" || f == "-n" then some ⟨"module_name", .storeStr none⟩
  else if f == "--target" || f == "-t" then
    some ⟨"target", .storeStr (some ["pi3", "pi0", "orangepi0", "pi3_64", "aarch64", "host"])⟩
  else if f == "--skip_ellcode" || f == "-skip_ellcode" then some ⟨"skip_ellcode", .storeTrue⟩
  else if f == "--language" || f == "-l" then
    some ⟨"language", .storeStr (some ["python", "cpp"])⟩
  else if f == "--llvm_format" || f == "-if" then
    some ⟨"llvm_format", .storeStr (some ["ir", "bc", "asm", "obj"])⟩
  else if f == "--outdir" || f == "-od" then some ⟨"outdir", .storeStr none⟩
  else if f == "--verbose" || f == "-v" then some ⟨"verbose", .storeTrue⟩
  else if f == "--profile" || f == "-p" then some ⟨"profile", .storeTrue⟩
  else if f == "--blas" || f == "-b" then some ⟨"blas", .storeStr none⟩
  else if f == "--no_fuse_linear_ops" || f == "-no_fuse_linear_ops" then
    some ⟨"no_fuse_linear_ops", .storeTrue⟩
  else if f == "--no_optimize_reorder" || f == "-no_optimize_reorder" then
    some ⟨"no_optimize_reorder", .storeTrue⟩
  else if f == "--no_opt_tool" || f == "-no_opt_tool" then some ⟨"no_opt_tool", .storeTrue⟩
  else if f == "--no_llc_tool" || f == "-no_llc_tool" then some ⟨"no_llc_tool", .storeTrue⟩
  else if f == "--no_optimize" || f == "-no_opt" then some ⟨"no_optimize", .storeTrue⟩
  else if f == "--no_parallelize" || f == "-no_par" then some ⟨"no_parallelize", .storeTrue⟩
  else if f == "--no_vectorize" || f == "-no_vec" then some ⟨"no_vectorize", .storeTrue⟩
  else if f == "--optimization_level" || f == "-ol" then
    some ⟨"optimization_level", .storeStr (some ["0", "1", "2", "3", "g"])⟩
  else if f == "--debug" || f == "-dbg" then some ⟨"debug", .storeTrue⟩
  else if f == "--global_value_alignment" || f == "-gva" then
    some ⟨"global_value_alignment", .storeInt⟩
  else if f == "--stats" || f == "-stats" then some ⟨"stats", .storeTrue⟩
  else none

/-- The argparse defaults taken from `ModuleBuilder.arguments`: `None`
for `model_file` (required, no default), `module_name` and `outdir`;
declared defaults for the rest. -/
def ModuleBuilder.defaults : Parsed :=
  [("model_file", .nonev), ("module_name", .nonev), ("target", .str "host"),
   ("skip_ellcode", .boolv false), ("language", .str "python"),
   ("llvm_format", .str "bc"), ("outdir", .nonev), ("verbose", .boolv false),
   ("profile", .boolv false), ("blas", .str "true"),
   ("no_fuse_linear_ops", .boolv false), ("no_optimize_reorder", .boolv false),
   ("no_opt_tool", .boolv false), ("no_llc_tool", .boolv false),
   ("no_optimize", .boolv false), ("no_parallelize", .boolv false),
   ("no_vectorize", .boolv false), ("optimization_level", .str "3"),
   ("debug", .boolv false), ("global_value_alignment", .intv 32),
   ("stats", .boolv false)]

/-- Argparse `choices` validation for a string option. -/
def checkChoices (f : String) (choices : Option (List String)) (v : String) :
    Except ParseErr Unit :=
  match choices with
  | none => .ok ()
  | some cs =>
    if cs.contains v then .ok ()
    else .error (.usage ("argument " ++ f ++ ": invalid choice: " ++ v))

/-- The token loop of the argparse parser that `parse_command_line`
constructs: match each token against the option table, consume a value
token for value options (or take the inline `=value` part), store `true`
for toggles, validate choices and the int type, and report unrecognized
tokens as usage errors. -/
def parseTokens (p : Parsed) : List String → Except ParseErr Parsed
  | [] => .ok p
  | t :: rest =>
    match flagSpec (splitEq t).1 with
    | none => .error (.usage ("unrecognized arguments: " ++ t))
    | some spec =>
      match spec.action, (splitEq t).2 with
      | .storeTrue, some _ =>
        .error (.usage ("argument " ++ (splitEq t).1 ++ ": ignored explicit argument"))
      | .storeTrue, none => parseTokens (setv p spec.dest (.boolv true)) rest
      | .storeStr choices, some v =>
        (match checkChoices (splitEq t).1 choices v with
         | .ok _ => parseTokens (setv p spec.dest (.str v)) rest
         | .error e => .error e)
      | .storeStr choices, none =>
        (match rest with
         | [] => .error (.usage ("argument " ++ (splitEq t).1 ++ ": expected one argument"))
         | v :: rest2 =>
           if looksLikeOption v then
             .error (.usage ("argument " ++ (splitEq t).1 ++ ": expected one argument"))
           else
             match checkChoices (splitEq t).1 choices v with
             | .ok _ => parseTokens (setv p spec.dest (.str v)) rest2
             | .error e => .error e)
      | .storeInt, some v =>
        (match pyParseInt? v with
         | some n => parseTokens (setv p spec.dest (.intv n)) rest
         | none =>
           .error (.usage ("argument " ++ (splitEq t).1 ++ ": invalid int value: " ++ v)))
      | .storeInt, none =>
        (match rest with
         | [] => .error (.usage ("argument " ++ (splitEq t).1 ++ ": expected one argument"))
         | v :: rest2 =>
           if looksLikeOption v then
             .error (.usage ("argument " ++ (splitEq t).1 ++ ": expected one argument"))
           else
             match pyParseInt? v with
             | some n => parseTokens (setv p spec.dest (.intv n)) rest2
             | none =>
               .error (.usage ("argument " ++ (splitEq t).1 ++ ": invalid int value: " ++ v)))

/-- The dash-dash split of `parse_command_line` (wrap.py lines 250-254):
everything after the first `--` token becomes `compile_args` and the
tokens before it are handed to the argparse parser. -/
def splitArgs : List String → List String × List String
  | [] => ([], [])
  | t :: rest =>
    if t = "--" then ([], rest)
    else
      match splitArgs rest with
      | (f, c) => (t :: f, c)

/-- Tail of `os.path.split` (POSIX): the part after the last slash
(wrap.py line 261 keeps only the tail). -/
def os_path_split_tail (p : String) : String :=
  String.mk ((p.data.reverse.takeWhile (fun c => c ≠ '/')).reverse)

/-- Root of `os.path.splitext`: drop the extension at the last dot,
unless only dots precede it in the basename (CPython rule). -/
def os_path_splitext_root (s : String) : String :=
  let cs := s.data
  let extLen := (cs.reverse.takeWhile (fun c => c ≠ '.')).length
  if extLen = cs.length then s
  else
    let dotIdx := cs.length - extLen - 1
    if (cs.take dotIdx).all (fun c => c = '.') then s
    else String.mk (cs.take dotIdx)

/-- Python `str.replace` for the single characters used at wrap.py
line 265: every dash becomes an underscore. -/
def replaceDashUnderscore (s : String) : String :=
  String.mk (s.data.map (fun c => if c = '-' then '_' else c))

/-- Python `str.lower` (ASCII; the inputs compared against are ASCII). -/
def pyLower (s : String) : String := String.mk (s.data.map Char.toLower)

/-- `ModuleBuilder.str2bool` (wrap.py lines 212-213): the lowercased
string must be one of yes, true, t, 1; anything else is false. -/
def ModuleBuilder.str2bool (v : String) : Bool :=
  ["yes", "true", "t", "1"].contains (pyLower v)

/-- The configuration fields `parse_command_line` assigns on `self`
(wrap.py lines 260-297; `objext` comes from `get_objext`, which always
returns the letter o). -/
structure Builder where
  model_file : String
  model_file_base : String
  model_name : String
  language : String
  target : String
  skip_ellcode : Bool
  objext : String
  output_dir : String
  profile : Bool
  verbose : Bool
  llvm_format : String
  optimization_level : String
  no_opt_tool : Bool
  no_llc_tool : Bool
  optimize : Bool
  parallelize : Bool
  vectorize : Bool
  fuse_linear_ops : Bool
  optimize_reorder : Bool
  debug : Bool
  blas : Bool
  swig : Bool
  cpp_header : Bool
  compile_args : List String
  global_value_alignment : Int
  stats : Bool
  deriving DecidableEq, Repr, Inhabited

/-- The resolved output directory (wrap.py lines 270-272): the `--outdir`
value if given, otherwise the target name. -/
def resolvedOutdir (p : Parsed) : String :=
  match getOptStr p "outdir" with
  | some d => d
  | none => getStr p "target" "host"

/-- Message of the exception raised at wrap.py lines 273-275 (quote
characters of the original format string omitted). -/
def conflictMsg (d : String) : String :=
  "You have a python module named " ++ d ++ ".py, which will conflict with the --outdir of "
    ++ d ++ ". Please specify a different outdir."

/-- The assignment block of `parse_command_line` (wrap.py lines 260-297):
derive the configuration fields from the parsed arguments, check for the
required `model_file`, and raise the outdir/module conflict exception when
a file named `<outdir>.py` exists. `loggerVerbose` abstracts
`self.logger.getVerbose()`. -/
def buildBuilder (isfile : String → Bool) (loggerVerbose : Bool)
    (compile_args : List String) (p : Parsed) : Except ParseErr Builder :=
  match getv p "model_file" with
  | .str model_file =>
    if isfile (resolvedOutdir p ++ ".py") then
      .error (.exc "Exception" (conflictMsg (resolvedOutdir p)))
    else
      .ok { model_file := model_file,
            model_file_base := os_path_splitext_root (os_path_split_tail model_file),
            model_name :=
              match getOptStr p "module_name" with
              | some s =>
                if s == "" then
                  replaceDashUnderscore (os_path_splitext_root (os_path_split_tail model_file))
                else s
              | none => replaceDashUnderscore (os_path_splitext_root (os_path_split_tail model_file)),
            language := getStr p "language" "python",
            target := getStr p "target" "host",
            skip_ellcode := getBool p "skip_ellcode",
            objext := "o",
            output_dir := resolvedOutdir p,
            profile := getBool p "profile",
            verbose := loggerVerbose || getBool p "verbose",
            llvm_format := getStr p "llvm_format" "bc",
            optimization_level := getStr p "optimization_level" "3",
            no_opt_tool :=
              getBool p "no_opt_tool"
                || (getStr p "optimization_level" "3" == "0"
                    || getStr p "optimization_level" "3" == "g"),
            no_llc_tool := getBool p "no_llc_tool",
            optimize := !getBool p "no_optimize",
            parallelize := !getBool p "no_optimize" && !getBool p "no_parallelize",
            vectorize := !getBool p "no_optimize" && !getBool p "no_vectorize",
            fuse_linear_ops := !getBool p "no_fuse_linear_ops",
            optimize_reorder := !getBool p "no_optimize_reorder",
            debug := getBool p "debug",
            blas := ModuleBuilder.str2bool (getStr p "blas" "true"),
            swig := getStr p "language" "python" != "cpp",
            cpp_header := getStr p "language" "python" == "cpp",
            compile_args := compile_args,
            global_value_alignment := getInt p "global_value_alignment" 32,
            stats := getBool p "stats" }
  | _ => .error (.usage "the following arguments are required: --model_file/-f")

/-- `ModuleBuilder.parse_command_line` (wrap.py lines 218-297): split the
argument list at the first `--`, run the argparse parser on the tokens
before it, then perform the assignment block with the tokens after `--`
as the pass-through compile arguments. -/
def ModuleBuilder.parse_command_line (isfile : String → Bool) (loggerVerbose : Bool)
    (args : List String) : Except ParseErr Builder :=
  match parseTokens ModuleBuilder.defaults (splitArgs args).1 with
  | .error e => .error e
  | .ok p => buildBuilder isfile loggerVerbose (splitArgs args).2 p

/-- Oracle for the external tools `run` shells out to: the file returned
by the model compiler, the file produced by the opt tool for a given
input, the host platform string (`sys.platform`) and whether
`sys.maxsize` exceeds two to the thirty-second power. -/
structure ToolEnv where
  compileOut : String
  optOut : String → String
  sysPlatform : String
  maxsize64 : Bool

/-- One observable effect of `ModuleBuilder.run` (wrap.py lines 381-458),
in invocation order. -/
inductive RunStep where
  | copy (folder : String)
  | compileStep (target : String) (extra : List String)
  | swigStep (outputDir modelBase language : String) (args : List String)
  | optStep (inputFile outFile level : String)
  | llcStep (inputFile target level objext : String)
  | writeStatsStep
  | createCMakeStep
  | createModuleInitStep
  | saveConfigStep
  deriving DecidableEq, Repr

/-- The platform preprocessor defines assembled for the swig invocation
(wrap.py lines 414-438). -/
def swigArgsFor (target sysPlatform : String) (maxsize64 : Bool) : List String :=
  if target == "pi3" || target == "pi0" || target == "orangepi0" then
    ["-DSWIGWORDSIZE32", "-DLINUX"]
  else if target == "pi3_64" || target == "aarch64" then
    ["-DSWIGWORDSIZE64", "-DLINUX"]
  else if target == "host" then
    if strStartsWith sysPlatform "win32" then ["-DWIN32", "-DSWIGWORDSIZE32"]
    else if strStartsWith sysPlatform "linux" then
      "-DLINUX" :: (if maxsize64 then ["-DSWIGWORDSIZE64"] else ["-DSWIGWORDSIZE32"])
    else if strStartsWith sysPlatform "darwin" then ["-DAPPLE"]
    else []
  else []

/-- Effect trace of `ModuleBuilder.run` (wrap.py lines 381-458): copy the
support files, invoke the model compiler, conditionally invoke swig, the
opt tool and the llc tool (llc consumes the opt output when opt ran, else
the compiler output), optionally write the stats file, write the CMake
file, and write the module init file for python. `save_config` is never
invoked by `run`. -/
def ModuleBuilder.run (env : ToolEnv) (b : Builder) : List RunStep :=
  let afterOpt := if b.no_opt_tool then env.compileOut else env.optOut env.compileOut
  [RunStep.copy "", RunStep.copy "include", RunStep.compileStep b.target b.compile_args]
    ++ (if b.swig then
          [RunStep.swigStep b.output_dir b.model_file_base b.language
            (swigArgsFor b.target env.sysPlatform env.maxsize64)]
        else [])
    ++ (if b.no_opt_tool then []
        else [RunStep.optStep env.compileOut (env.optOut env.compileOut) b.optimization_level])
    ++ (if b.no_llc_tool then []
        else [RunStep.llcStep afterOpt b.target b.optimization_level ("." ++ b.objext)])
    ++ (if b.stats then [RunStep.writeStatsStep] else [])
    ++ [RunStep.createCMakeStep]
    ++ (if b.language == "python" then [RunStep.createModuleInitStep] else [])

/-- Key-value store for the JSON config dictionary written by
`save_config` (shadowing cons; `lookupkv` reads the newest binding). -/
def setkv (c : List (String × String)) (k v : String) : List (String × String) := (k, v) :: c

def lookupkv (c : List (String × String)) (k : String) : Option String :=
  match c with
  | [] => none
  | (k', v) :: rest => if k == k' then some v else lookupkv rest k

/-- `ModuleBuilder.save_config` (wrap.py lines 358-367): record the model
name under `model` and the model name joined to the function name under
`func`. This function is defined in wrap.py but never called by `run`. -/
def ModuleBuilder.save_config (config : List (String × String))
    (model_name func_name : String) : List (String × String) :=
  setkv (setkv config "model" model_name) "func" (model_name ++ "_" ++ func_name)

/-- Result of `builder.run()` as seen by the `__main__` block: normal
return, or a propagating Python exception with its type and message. -/
inductive PyResult where
  | ok
  | exc (ty msg : String)
  deriving DecidableEq, Repr

/-- Process-level outcome of the script. `exited code logged` is a
`sys.exit` with the given status and the message logged by the handler
(if any); `crashedUncaught` is a Python exception that reaches the
interpreter, which prints a traceback (no handler runs). -/
inductive TopOutcome where
  | exited (code : Nat) (logged : Option String)
  | crashedUncaught (ty msg : String)
  deriving DecidableEq, Repr

/-- The `__main__` block (wrap.py lines 461-471):
`builder.parse_command_line(sys.argv[1:])` runs BEFORE the try block, so
an argparse usage error exits with status 2, and a raised exception (such
as the outdir conflict) propagates uncaught; only `builder.run()` is
inside the try, whose handler formats the exception type and message,
logs it, and exits with status 1. A run that returns normally falls off
the end of the script (exit status 0). -/
def wrapMain (parseRes : Except ParseErr Builder) (runRes : Builder → PyResult) : TopOutcome :=
  match parseRes with
  | .error (.usage _) => .exited 2 none
  | .error (.exc ty msg) => .crashedUncaught ty msg
  | .ok b =>
    match runRes b with
    | .exc ty msg =>
      .exited 1 (some ("### WrapException: " ++ ty ++ ": " ++ msg))
    | .ok => .exited 0 none

/-- Whether a parse attempt completed without raising. -/
def parseSucceeds (e : Except ParseErr Builder) : Bool :=
  match e with
  | .ok _ => true
  | .error _ => false

/-- Whether an outcome is the caught-logged-exit-1 shape the error-policy
claim prescribes. -/
def isCaughtLoggedExit1 (o : TopOutcome) : Bool :=
  match o with
  | .exited 1 (some _) => true
  | _ => false

def isOptStep : RunStep → Bool
  | .optStep _ _ _ => true
  | _ => false

def isLlcStep : RunStep → Bool
  | .llcStep _ _ _ _ => true
  | _ => false

def isSwigStep : RunStep → Bool
  | .swigStep _ _ _ _ => true
  | _ => false

def runsOpt (steps : List RunStep) : Bool := steps.any isOptStep

def runsLlc (steps : List RunStep) : Bool := steps.any isLlcStep

def runsSwig (steps : List RunStep) : Bool := steps.any isSwigStep

/-- Which destination a command-line token would store into, if any. -/
def touches (key : String) (t : String) : Bool :=
  match flagSpec (splitEq t).1 with
  | some spec => spec.dest == key
  | none => false

/-- A destination is untouched by an argument list when no token before
the first `--` maps to it. -/
def untouched (argv : List String) (key : String) : Prop :=
  ((splitArgs argv).1.all (fun t => !touches key t)) = true

instance (argv : List String) (key : String) : Decidable (untouched argv key) := by
  unfold untouched; infer_instance

theorem getv_setv_same (p : Parsed) (k : String) (v : Val) : getv (setv p k v) k = v := by
  simp [getv, setv]

theorem getv_setv_ne (p : Parsed) (k k' : String) (v : Val) (h : k' ≠ k) :
    getv (setv p k v) k' = getv p k' := by
  simp [getv, setv, h]

theorem parseTokens_nil (p : Parsed) : parseTokens p [] = .ok p := rfl

set_option maxHeartbeats 2000000 in
theorem parseTokens_boolFlag (p : Parsed) (t dest : String) (rest : List String)
    (hspec : flagSpec (splitEq t).1 = some ⟨dest, .storeTrue⟩)
    (ht : (splitEq t).2 = none) :
    parseTokens p (t :: rest) = parseTokens (setv p dest (.boolv true)) rest := by
  rw [parseTokens, hspec, ht]

theorem parseTokens_strFlag_sep (p : Parsed) (t dest : String) (cs : Option (List String))
    (v : String) (rest : List String)
    (hspec : flagSpec (splitEq t).1 = some ⟨dest, .storeStr cs⟩)
    (ht : (splitEq t).2 = none)
    (hv : looksLikeOption v = false)
    (hc : checkChoices (splitEq t).1 cs v = .ok ()) :
    parseTokens p (t :: v :: rest) = parseTokens (setv p dest (.str v)) rest := by
  rw [parseTokens, hspec, ht]
  simp only [hv, Bool.false_eq_true, if_false, hc]

theorem parseTokens_strFlag_sep_bad (p : Parsed) (t dest : String) (cs : Option (List String))
    (v : String) (rest : List String) (e : ParseErr)
    (hspec : flagSpec (splitEq t).1 = some ⟨dest, .storeStr cs⟩)
    (ht : (splitEq t).2 = none)
    (hv : looksLikeOption v = false)
    (hc : checkChoices (splitEq t).1 cs v = .error e) :
    parseTokens p (t :: v :: rest) = .error e := by
  rw [parseTokens, hspec, ht]
  simp only [hv, Bool.false_eq_true, if_false, hc]

theorem parseTokens_strFlag_optlike (p : Parsed) (t dest : String) (cs : Option (List String))
    (v : String) (rest : List String)
    (hspec : flagSpec (splitEq t).1 = some ⟨dest, .storeStr cs⟩)
    (ht : (splitEq t).2 = none)
    (hv : looksLikeOption v = true) :
    parseTokens p (t :: v :: rest) =
      .error (.usage ("argument " ++ (splitEq t).1 ++ ": expected one argument")) := by
  rw [parseTokens, hspec, ht]
  simp only [hv, if_true]

theorem parseTokens_intFlag_sep (p : Parsed) (t dest : String) (v : String) (n : Int)
    (rest : List String)
    (hspec : flagSpec (splitEq t).1 = some ⟨dest, .storeInt⟩)
    (ht : (splitEq t).2 = none)
    (hv : looksLikeOption v = false)
    (hn : pyParseInt? v = some n) :
    parseTokens p (t :: v :: rest) = parseTokens (setv p dest (.intv n)) rest := by
  rw [parseTokens, hspec, ht]
  simp only [hv, Bool.false_eq_true, if_false, hn]

theorem parseTokens_intFlag_sep_bad (p : Parsed) (t dest : String) (v : String)
    (rest : List String)
    (hspec : flagSpec (splitEq t).1 = some ⟨dest, .storeInt⟩)
    (ht : (splitEq t).2 = none)
    (hv : looksLikeOption v = false)
    (hn : pyParseInt? v = none) :
    parseTokens p (t :: v :: rest) =
      .error (.usage ("argument " ++ (splitEq t).1 ++ ": invalid int value: " ++ v)) := by
  rw [parseTokens, hspec, ht]
  simp only [hv, Bool.false_eq_true, if_false, hn]

theorem splitArgs_decomp (argv : List String) (h : argv.contains "--" = true) :
    argv = (splitArgs argv).1 ++ "--" :: (splitArgs argv).2 ∧
      (splitArgs argv).1.contains "--" = false := by
  induction argv with
  | nil => simp at h
  | cons t rest ih =>
    by_cases ht : t = "--"
    · subst ht
      constructor
      · simp [splitArgs]
      · simp [splitArgs]
    · have hrest : rest.contains "--" = true := by
        simp only [List.contains_cons] at h
        rcases Bool.or_eq_true_iff.mp h with h1 | h1
        · exact absurd (by simpa using h1 : "--" = t).symm ht
        · exact h1
      obtain ⟨ih1, ih2⟩ := ih hrest
      have hsplit : splitArgs (t :: rest) = (t :: (splitArgs rest).1, (splitArgs rest).2) := by
        simp only [splitArgs, if_neg ht]
      refine ⟨?_, ?_⟩
      · rw [hsplit]
        simpa using ih1
      · rw [hsplit]
        simp only [List.contains_cons, Bool.or_eq_false_iff]
        exact ⟨by simpa using fun hcomm : "--" = t => ht hcomm.symm, ih2⟩

set_option maxHeartbeats 2000000 in
theorem parseTokens_untouched_aux (n : Nat) :
    ∀ (ts : List String), ts.length ≤ n →
    ∀ (p p' : Parsed) (key : String),
      parseTokens p ts = .ok p' →
      (ts.all fun t => !touches key t) = true →
      getv p' key = getv p key := by
  induction n with
  | zero =>
    intro ts hlen p p' key hok _
    have hts : ts = [] := List.eq_nil_of_length_eq_zero (Nat.le_zero.mp hlen)
    subst hts
    rw [parseTokens_nil] at hok
    cases hok
    rfl
  | succ n ih =>
    intro ts hlen p p' key hok hall
    cases ts with
    | nil =>
      rw [parseTokens_nil] at hok
      cases hok
      rfl
    | cons t rest =>
      simp only [List.all_cons, Bool.and_eq_true] at hall
      obtain ⟨htk', hrest⟩ := hall
      have htk : touches key t = false := by simpa using htk'
      have hlen' : rest.length ≤ n := by
        simpa using Nat.le_of_succ_le_succ (by simpa using hlen)
      rw [parseTokens] at hok
      split at hok
      · simp at hok
      · rename_i spec hspec
        have hdk : spec.dest ≠ key := by
          simp only [touches, hspec] at htk
          simpa using htk
        have step : ∀ (x : Val) (rest' : List String),
            parseTokens (setv p spec.dest x) rest' = .ok p' →
            rest'.length ≤ n →
            (rest'.all fun u => !touches key u) = true →
            getv p' key = getv p key := by
          intro x rest' hok' hlen'' hall''
          rw [ih rest' hlen'' _ p' key hok' hall'']
          exact getv_setv_ne p spec.dest key x (Ne.symm hdk)
        split at hok
        · simp at hok
        · exact step _ rest hok hlen' hrest
        · split at hok
          · exact step _ rest hok hlen' hrest
          · simp at hok
        · split at hok
          · simp at hok
          · rename_i v rest2
            split at hok
            · simp at hok
            · split at hok
              · have hlen2 : rest2.length ≤ n := Nat.le_of_succ_le (by simpa using hlen')
                have hrest2 : (rest2.all fun u => !touches key u) = true := by
                  simp only [List.all_cons, Bool.and_eq_true] at hrest
                  exact hrest.2
                exact step _ rest2 hok hlen2 hrest2
              · simp at hok
        · split at hok
          · exact step _ rest hok hlen' hrest
          · simp at hok
        · split at hok
          · simp at hok
          · rename_i v rest2
            split at hok
            · simp at hok
            · split at hok
              · have hlen2 : rest2.length ≤ n := Nat.le_of_succ_le (by simpa using hlen')
                have hrest2 : (rest2.all fun u => !touches key u) = true := by
                  simp only [List.all_cons, Bool.and_eq_true] at hrest
                  exact hrest.2
                exact step _ rest2 hok hlen2 hrest2
              · simp at hok

/-- A destination no token maps to keeps the value it has in the starting
record; in particular, starting from the declared defaults, an omitted
flag keeps its declared default. -/
theorem parseTokens_untouched (ts : List String) (p p' : Parsed) (key : String)
    (hok : parseTokens p ts = .ok p')
    (hall : (ts.all fun t => !touches key t) = true) :
    getv p' key = getv p key :=
  parseTokens_untouched_aux ts.length ts (Nat.le_refl _) p p' key hok hall

set_option maxHeartbeats 2000000 in
theorem buildBuilder_fields (isfile : String → Bool) (lv : Bool) (ca : List String)
    (p : Parsed) (b : Builder)
    (h : buildBuilder isfile lv ca p = .ok b) :
    getv p "model_file" = .str b.model_file
    ∧ b.model_file_base = os_path_splitext_root (os_path_split_tail b.model_file)
    ∧ b.model_name = (match getOptStr p "module_name" with
        | some s => if s == "" then replaceDashUnderscore b.model_file_base else s
        | none => replaceDashUnderscore b.model_file_base)
    ∧ b.language = getStr p "language" "python"
    ∧ b.target = getStr p "target" "host"
    ∧ b.skip_ellcode = getBool p "skip_ellcode"
    ∧ b.objext = "o"
    ∧ b.output_dir = resolvedOutdir p
    ∧ isfile (b.output_dir ++ ".py") = false
    ∧ b.profile = getBool p "profile"
    ∧ b.verbose = (lv || getBool p "verbose")
    ∧ b.llvm_format = getStr p "llvm_format" "bc"
    ∧ b.optimization_level = getStr p "optimization_level" "3"
    ∧ b.no_opt_tool
        = (getBool p "no_opt_tool" || (b.optimization_level == "0" || b.optimization_level == "g"))
    ∧ b.no_llc_tool = getBool p "no_llc_tool"
    ∧ b.optimize = !getBool p "no_optimize"
    ∧ b.parallelize = (b.optimize && !getBool p "no_parallelize")
    ∧ b.vectorize = (b.optimize && !getBool p "no_vectorize")
    ∧ b.fuse_linear_ops = !getBool p "no_fuse_linear_ops"
    ∧ b.optimize_reorder = !getBool p "no_optimize_reorder"
    ∧ b.debug = getBool p "debug"
    ∧ b.blas = ModuleBuilder.str2bool (getStr p "blas" "true")
    ∧ b.swig = (b.language != "cpp")
    ∧ b.cpp_header = (b.language == "cpp")
    ∧ b.compile_args = ca
    ∧ b.global_value_alignment = getInt p "global_value_alignment" 32
    ∧ b.stats = getBool p "stats" := by
  rw [buildBuilder] at h
  split at h
  · rename_i mf hmf
    split at h
    · simp at h
    · rename_i hfile
      injection h with h
      subst h
      refine ⟨hmf, ?_⟩
      repeat' apply And.intro
      all_goals first
        | rfl
        | simpa using hfile
  · simp at h

theorem getStr_congr (p q : Parsed) (k d : String) (h : getv p k = getv q k) :
    getStr p k d = getStr q k d := by
  simp only [getStr, h]

theorem getBool_congr (p q : Parsed) (k : String) (h : getv p k = getv q k) :
    getBool p k = getBool q k := by
  simp only [getBool, h]

theorem getInt_congr (p q : Parsed) (k : String) (d : Int) (h : getv p k = getv q k) :
    getInt p k d = getInt q k d := by
  simp only [getInt, h]

theorem getOptStr_congr (p q : Parsed) (k : String) (h : getv p k = getv q k) :
    getOptStr p k = getOptStr q k := by
  simp only [getOptStr, h]

/-- Claim C1: for every argument list containing the token dash-dash, every
token after the first dash-dash goes verbatim and in order into the
pass-through compile-argument list and is excluded from flag parsing, and
only the tokens before the first dash-dash are parsed as flags. -/
theorem claim1_dashdash_passthrough (argv : List String) (h : argv.contains "--" = true) :
    argv = (splitArgs argv).1 ++ "--" :: (splitArgs argv).2
    ∧ (splitArgs argv).1.contains "--" = false
    ∧ (∀ (isfile : String → Bool) (lv : Bool),
        ModuleBuilder.parse_command_line isfile lv argv =
          match parseTokens ModuleBuilder.defaults (splitArgs argv).1 with
          | .error e => .error e
          | .ok p => buildBuilder isfile lv (splitArgs argv).2 p)
    ∧ (∀ (isfile : String → Bool) (lv : Bool) (b : Builder),
        ModuleBuilder.parse_command_line isfile lv argv = .ok b →
          b.compile_args = (splitArgs argv).2) := by
  obtain ⟨h1, h2⟩ := splitArgs_decomp argv h
  refine ⟨h1, h2, fun _ _ => rfl, ?_⟩
  intro isfile lv b hok
  rw [ModuleBuilder.parse_command_line] at hok
  split at hok
  · simp at hok
  · rename_i p hp
    obtain ⟨_, _, _, _, _, _, _, _, _, _, _, _, _, _, _, _, _, _, _, _, _, _, _, _, hca, _, _⟩ :=
      buildBuilder_fields isfile lv _ p b hok
    exact hca

def demoBuilder1 : Builder :=
  (ModuleBuilder.parse_command_line (fun _ => false) false
    ["--model_file", "m.ell", "--", "-O2", "--extra"]).toOption.getD default

theorem claim1_witness :
    ["--model_file", "m.ell", "--", "-O2", "--extra"]
      = (splitArgs ["--model_file", "m.ell", "--", "-O2", "--extra"]).1
        ++ "--" :: (splitArgs ["--model_file", "m.ell", "--", "-O2", "--extra"]).2
    ∧ demoBuilder1.compile_args
        = (splitArgs ["--model_file", "m.ell", "--", "-O2", "--extra"]).2 := by
  have h := claim1_dashdash_passthrough ["--model_file", "m.ell", "--", "-O2", "--extra"]
    (by decide)
  exact ⟨h.1, h.2.2.2 (fun _ => false) false demoBuilder1 (by decide)⟩

def isfileHostOnly : String → Bool := fun s => s == "host"

def demoBuilder2 : Builder :=
  (ModuleBuilder.parse_command_line isfileHostOnly false
    ["--model_file", "m.ell"]).toOption.getD default

/-- Claim C2 counterexample: with an existing file named exactly like the
resolved output directory (here `host`, and no file named `host.py`),
`parse_command_line` completes without raising, contradicting the claim
that such a collision raises a configuration error. The check at wrap.py
line 273 looks for `<outdir>.py`, not for a file named like the output
directory itself. -/
theorem claim2_counterexample :
    isfileHostOnly "host" = true
    ∧ ModuleBuilder.parse_command_line isfileHostOnly false ["--model_file", "m.ell"]
        = .ok demoBuilder2
    ∧ demoBuilder2.output_dir = "host" := by
  refine ⟨rfl, by decide, by decide⟩

/-- Claim C2 (amended): whenever a file named like the resolved output
directory with `.py` appended exists (a same-named Python module),
`parse_command_line` raises the configuration exception instead of
completing. -/
theorem claim2_outdir_py_conflict (isfile : String → Bool) (lv : Bool) (argv : List String)
    (p : Parsed)
    (hp : parseTokens ModuleBuilder.defaults (splitArgs argv).1 = .ok p)
    (hmf : ∃ mf, getv p "model_file" = .str mf)
    (hfile : isfile (resolvedOutdir p ++ ".py") = true) :
    ModuleBuilder.parse_command_line isfile lv argv
      = .error (.exc "Exception" (conflictMsg (resolvedOutdir p))) := by
  obtain ⟨mf, hmf⟩ := hmf
  simp only [ModuleBuilder.parse_command_line, hp]
  simp only [buildBuilder, hmf]
  rw [if_pos hfile]

theorem claim2_witness :
    ModuleBuilder.parse_command_line (fun s => s == "host.py") false ["--model_file", "m.ell"]
      = .error (.exc "Exception" (conflictMsg "host")) := by
  have h := claim2_outdir_py_conflict (fun s => s == "host.py") false ["--model_file", "m.ell"]
    (setv ModuleBuilder.defaults "model_file" (.str "m.ell"))
    (by decide) ⟨"m.ell", by decide⟩ (by decide)
  exact h.trans (by decide)

/-- Claim C3 counterexample: an exception raised during command-line
parsing (the outdir conflict) propagates to the top level but is NOT
caught-formatted-logged with exit status 1: `parse_command_line` is called
outside the try block of the `__main__` section (wrap.py line 464 versus
465), so the interpreter reports an uncaught traceback. -/
theorem claim3_counterexample :
    isCaughtLoggedExit1
      (wrapMain
        (ModuleBuilder.parse_command_line (fun s => s == "host.py") false
          ["--model_file", "m.ell"])
        (fun _ => .ok)) = false := by
  decide

/-- Claim C3 (amended): an exception propagating out of `run()` is caught,
formatted with its exception type and message, logged, and the process
exits with status 1; a run that returns normally exits with status 0; but
an exception raised during command-line parsing is not caught by that
handler: a raised exception reaches the interpreter uncaught, and an
argparse usage error exits with status 2. -/
theorem claim3_toplevel_error_policy :
    (∀ (b : Builder) (ty msg : String),
      wrapMain (.ok b) (fun _ => .exc ty msg)
        = .exited 1 (some ("### WrapException: " ++ ty ++ ": " ++ msg)))
    ∧ (∀ (b : Builder), wrapMain (.ok b) (fun _ => .ok) = .exited 0 none)
    ∧ (∀ (ty msg : String) (r : Builder → PyResult),
      wrapMain (.error (.exc ty msg)) r = .crashedUncaught ty msg)
    ∧ (∀ (m : String) (r : Builder → PyResult),
      wrapMain (.error (.usage m)) r = .exited 2 none) :=
  ⟨fun _ _ _ => rfl, fun _ => rfl, fun _ _ _ => rfl, fun _ _ => rfl⟩

def sampleEnv : ToolEnv :=
  { compileOut := "model.bc", optOut := fun s => s ++ ".opt", sysPlatform := "linux",
    maxsize64 := true }

def sampleBuilder : Builder :=
  (ModuleBuilder.parse_command_line (fun _ => false) false
    ["--model_file", "m.ell"]).toOption.getD default

/-- Claim C4 counterexample: a successful run with a concrete
configuration performs no config-file write at all: `save_config` never
appears in the effect trace of `run`, so no JSON config file recording
the model and function names is persisted. -/
theorem claim4_counterexample :
    RunStep.saveConfigStep ∉ ModuleBuilder.run sampleEnv sampleBuilder := by
  decide

/-- Claim C4 (amended): `run` never invokes `save_config` (for any
configuration and tool environment the effect trace contains no
config-file write); the `save_config` function itself, which is dead code
in wrap.py, would record the model name under `model` and the model name
joined with the function name under `func` if it were called. -/
theorem claim4_saveconfig_dead :
    (∀ (env : ToolEnv) (b : Builder), RunStep.saveConfigStep ∉ ModuleBuilder.run env b)
    ∧ (∀ (c : List (String × String)) (mn fn : String),
        lookupkv (ModuleBuilder.save_config c mn fn) "model" = some mn
        ∧ lookupkv (ModuleBuilder.save_config c mn fn) "func" = some (mn ++ "_" ++ fn)) := by
  constructor
  · intro env b
    simp only [ModuleBuilder.run]
    split_ifs <;> simp
  · intro c mn fn
    constructor <;>
      simp [ModuleBuilder.save_config, setkv, lookupkv,
        show (("model" : String) == "func") = false from rfl,
        show (("model" : String) == "model") = true from rfl,
        show (("func" : String) == "func") = true from rfl]

set_option maxHeartbeats 1000000 in
/-- Claim C5: every recognized flag omitted from the command line leaves
its configuration field at the default declared in the
`ModuleBuilder.arguments` table: target `host`, language `python`,
llvm_format `bc`, optimization_level `3`, global_value_alignment 32, blas
true, and false for every boolean toggle (with the derived fields taking
the values those defaults induce). -/
theorem claim5_defaults (isfile : String → Bool) (lv : Bool) (argv : List String) (b : Builder)
    (hok : ModuleBuilder.parse_command_line isfile lv argv = .ok b) :
    (untouched argv "target" → b.target = "host")
    ∧ (untouched argv "language" → b.language = "python")
    ∧ (untouched argv "llvm_format" → b.llvm_format = "bc")
    ∧ (untouched argv "optimization_level" → b.optimization_level = "3")
    ∧ (untouched argv "global_value_alignment" → b.global_value_alignment = 32)
    ∧ (untouched argv "blas" → b.blas = true)
    ∧ (untouched argv "skip_ellcode" → b.skip_ellcode = false)
    ∧ (untouched argv "profile" → b.profile = false)
    ∧ (untouched argv "debug" → b.debug = false)
    ∧ (untouched argv "stats" → b.stats = false)
    ∧ (untouched argv "verbose" → b.verbose = lv)
    ∧ (untouched argv "no_llc_tool" → b.no_llc_tool = false)
    ∧ (untouched argv "no_opt_tool" → untouched argv "optimization_level" →
        b.no_opt_tool = false)
    ∧ (untouched argv "no_optimize" → b.optimize = true)
    ∧ (untouched argv "no_optimize" → untouched argv "no_parallelize" → b.parallelize = true)
    ∧ (untouched argv "no_optimize" → untouched argv "no_vectorize" → b.vectorize = true)
    ∧ (untouched argv "no_fuse_linear_ops" → b.fuse_linear_ops = true)
    ∧ (untouched argv "no_optimize_reorder" → b.optimize_reorder = true)
    ∧ (untouched argv "module_name" →
        b.model_name = replaceDashUnderscore (os_path_splitext_root (os_path_split_tail b.model_file)))
    ∧ (untouched argv "outdir" → b.output_dir = b.target) := by
  rw [ModuleBuilder.parse_command_line] at hok
  split at hok
  · simp at hok
  · rename_i p hp
    obtain ⟨hm, hbase, hname, hlang, htgt, hskip, hobj, hout, hfile, hprof, hverb, hllvm,
      holev, hnoopt, hnollc, hoptz, hpar, hvec, hfuse, hreord, hdbg, hblas, hswig, hcpp,
      hca, hgva, hstats⟩ := buildBuilder_fields isfile lv _ p b hok
    have gdef : ∀ key : String, untouched argv key →
        getv p key = getv ModuleBuilder.defaults key :=
      fun key hu => parseTokens_untouched (splitArgs argv).1 ModuleBuilder.defaults p key hp hu
    refine ⟨?_, ?_, ?_, ?_, ?_, ?_, ?_, ?_, ?_, ?_, ?_, ?_, ?_, ?_, ?_, ?_, ?_, ?_, ?_, ?_⟩
    · intro hu
      rw [htgt, getStr_congr p ModuleBuilder.defaults "target" "host" (gdef _ hu)]
      decide
    · intro hu
      rw [hlang, getStr_congr p ModuleBuilder.defaults "language" "python" (gdef _ hu)]
      decide
    · intro hu
      rw [hllvm, getStr_congr p ModuleBuilder.defaults "llvm_format" "bc" (gdef _ hu)]
      decide
    · intro hu
      rw [holev, getStr_congr p ModuleBuilder.defaults "optimization_level" "3" (gdef _ hu)]
      decide
    · intro hu
      rw [hgva, getInt_congr p ModuleBuilder.defaults "global_value_alignment" 32 (gdef _ hu)]
      decide
    · intro hu
      rw [hblas, getStr_congr p ModuleBuilder.defaults "blas" "true" (gdef _ hu)]
      decide
    · intro hu
      rw [hskip, getBool_congr p ModuleBuilder.defaults "skip_ellcode" (gdef _ hu)]
      decide
    · intro hu
      rw [hprof, getBool_congr p ModuleBuilder.defaults "profile" (gdef _ hu)]
      decide
    · intro hu
      rw [hdbg, getBool_congr p ModuleBuilder.defaults "debug" (gdef _ hu)]
      decide
    · intro hu
      rw [hstats, getBool_congr p ModuleBuilder.defaults "stats" (gdef _ hu)]
      decide
    · intro hu
      rw [hverb, getBool_congr p ModuleBuilder.defaults "verbose" (gdef _ hu)]
      rw [show getBool ModuleBuilder.defaults "verbose" = false from rfl]
      exact Bool.or_false lv
    · intro hu
      rw [hnollc, getBool_congr p ModuleBuilder.defaults "no_llc_tool" (gdef _ hu)]
      decide
    · intro hu1 hu2
      rw [hnoopt, getBool_congr p ModuleBuilder.defaults "no_opt_tool" (gdef _ hu1), holev,
        getStr_congr p ModuleBuilder.defaults "optimization_level" "3" (gdef _ hu2)]
      decide
    · intro hu
      rw [hoptz, getBool_congr p ModuleBuilder.defaults "no_optimize" (gdef _ hu)]
      decide
    · intro hu1 hu2
      rw [hpar, hoptz, getBool_congr p ModuleBuilder.defaults "no_optimize" (gdef _ hu1),
        getBool_congr p ModuleBuilder.defaults "no_parallelize" (gdef _ hu2)]
      decide
    · intro hu1 hu2
      rw [hvec, hoptz, getBool_congr p ModuleBuilder.defaults "no_optimize" (gdef _ hu1),
        getBool_congr p ModuleBuilder.defaults "no_vectorize" (gdef _ hu2)]
      decide
    · intro hu
      rw [hfuse, getBool_congr p ModuleBuilder.defaults "no_fuse_linear_ops" (gdef _ hu)]
      decide
    · intro hu
      rw [hreord, getBool_congr p ModuleBuilder.defaults "no_optimize_reorder" (gdef _ hu)]
      decide
    · intro hu
      rw [hname, getOptStr_congr p ModuleBuilder.defaults "module_name" (gdef _ hu)]
      show replaceDashUnderscore b.model_file_base = _
      exact congrArg replaceDashUnderscore hbase
    · intro hu
      rw [hout]
      simp only [resolvedOutdir, getOptStr_congr p ModuleBuilder.defaults "outdir" (gdef _ hu)]
      exact htgt.symm

def demoBuilder5 : Builder :=
  (ModuleBuilder.parse_command_line (fun _ => false) false
    ["--model_file", "m.ell"]).toOption.getD default

theorem claim5_witness :
    demoBuilder5.target = "host" ∧ demoBuilder5.language = "python"
    ∧ demoBuilder5.llvm_format = "bc" ∧ demoBuilder5.optimization_level = "3"
    ∧ demoBuilder5.global_value_alignment = 32 ∧ demoBuilder5.blas = true
    ∧ demoBuilder5.stats = false := by
  have h := claim5_defaults (fun _ => false) false ["--model_file", "m.ell"] demoBuilder5
    (by decide)
  exact ⟨h.1 (by decide), h.2.1 (by decide), h.2.2.1 (by decide), h.2.2.2.1 (by decide),
    h.2.2.2.2.1 (by decide), h.2.2.2.2.2.1 (by decide),
    h.2.2.2.2.2.2.2.2.2.1 (by decide)⟩

/-- The parsed record after consuming the required model-file option. -/
def pBase : Parsed := setv ModuleBuilder.defaults "model_file" (.str "m.ell")

/-- Claim C6: every recognized flag supplied with a value stores exactly
that value into its destination of the parsed-argument record, subject to
the declared choices and type of its argument-table entry: a value outside
the declared choices is rejected with a usage error, and a non-integer
value for the int-typed option is rejected with a usage error. -/
theorem claim6_flag_values (v : String) (hv : looksLikeOption v = false) :
    (parseTokens ModuleBuilder.defaults ["--model_file", v]
      = .ok (setv ModuleBuilder.defaults "model_file" (.str v)))
    ∧ (parseTokens ModuleBuilder.defaults ["--model_file", "m.ell", "--module_name", v]
      = .ok (setv pBase "module_name" (.str v)))
    ∧ (parseTokens ModuleBuilder.defaults ["--model_file", "m.ell", "--outdir", v]
      = .ok (setv pBase "outdir" (.str v)))
    ∧ (parseTokens ModuleBuilder.defaults ["--model_file", "m.ell", "--blas", v]
      = .ok (setv pBase "blas" (.str v)))
    ∧ ((["pi3", "pi0", "orangepi0", "pi3_64", "aarch64", "host"].contains v = true →
        parseTokens ModuleBuilder.defaults ["--model_file", "m.ell", "--target", v]
          = .ok (setv pBase "target" (.str v)))
      ∧ (["pi3", "pi0", "orangepi0", "pi3_64", "aarch64", "host"].contains v = false →
        parseTokens ModuleBuilder.defaults ["--model_file", "m.ell", "--target", v]
          = .error (.usage ("argument --target: invalid choice: " ++ v))))
    ∧ ((["python", "cpp"].contains v = true →
        parseTokens ModuleBuilder.defaults ["--model_file", "m.ell", "--language", v]
          = .ok (setv pBase "language" (.str v)))
      ∧ (["python", "cpp"].contains v = false →
        parseTokens ModuleBuilder.defaults ["--model_file", "m.ell", "--language", v]
          = .error (.usage ("argument --language: invalid choice: " ++ v))))
    ∧ ((["ir", "bc", "asm", "obj"].contains v = true →
        parseTokens ModuleBuilder.defaults ["--model_file", "m.ell", "--llvm_format", v]
          = .ok (setv pBase "llvm_format" (.str v)))
      ∧ (["ir", "bc", "asm", "obj"].contains v = false →
        parseTokens ModuleBuilder.defaults ["--model_file", "m.ell", "--llvm_format", v]
          = .error (.usage ("argument --llvm_format: invalid choice: " ++ v))))
    ∧ ((["0", "1", "2", "3", "g"].contains v = true →
        parseTokens ModuleBuilder.defaults ["--model_file", "m.ell", "--optimization_level", v]
          = .ok (setv pBase "optimization_level" (.str v)))
      ∧ (["0", "1", "2", "3", "g"].contains v = false →
        parseTokens ModuleBuilder.defaults ["--model_file", "m.ell", "--optimization_level", v]
          = .error (.usage ("argument --optimization_level: invalid choice: " ++ v))))
    ∧ ((∀ n : Int, pyParseInt? v = some n →
        parseTokens ModuleBuilder.defaults
            ["--model_file", "m.ell", "--global_value_alignment", v]
          = .ok (setv pBase "global_value_alignment" (.intv n)))
      ∧ (pyParseInt? v = none →
        parseTokens ModuleBuilder.defaults
            ["--model_file", "m.ell", "--global_value_alignment", v]
          = .error (.usage ("argument --global_value_alignment: invalid int value: " ++ v)))) := by
  have s1 : ∀ L, parseTokens ModuleBuilder.defaults ("--model_file" :: "m.ell" :: L)
      = parseTokens pBase L := fun L =>
    parseTokens_strFlag_sep ModuleBuilder.defaults "--model_file" "model_file" none "m.ell" L
      (by decide) (by decide) (by decide) rfl
  refine ⟨?_, ?_, ?_, ?_, ⟨?_, ?_⟩, ⟨?_, ?_⟩, ⟨?_, ?_⟩, ⟨?_, ?_⟩, ⟨?_, ?_⟩⟩
  · exact (parseTokens_strFlag_sep ModuleBuilder.defaults "--model_file" "model_file" none v []
      (by decide) (by decide) hv rfl).trans (parseTokens_nil _)
  · exact (s1 _).trans ((parseTokens_strFlag_sep pBase "--module_name" "module_name" none v []
      (by decide) (by decide) hv rfl).trans (parseTokens_nil _))
  · exact (s1 _).trans ((parseTokens_strFlag_sep pBase "--outdir" "outdir" none v []
      (by decide) (by decide) hv rfl).trans (parseTokens_nil _))
  · exact (s1 _).trans ((parseTokens_strFlag_sep pBase "--blas" "blas" none v []
      (by decide) (by decide) hv rfl).trans (parseTokens_nil _))
  · intro hc
    exact (s1 _).trans ((parseTokens_strFlag_sep pBase "--target" "target"
      (some ["pi3", "pi0", "orangepi0", "pi3_64", "aarch64", "host"]) v []
      (by decide) (by decide) hv (by simp only [checkChoices]; rw [if_pos hc])).trans (parseTokens_nil _))
  · intro hc
    exact (s1 _).trans (parseTokens_strFlag_sep_bad pBase "--target" "target"
      (some ["pi3", "pi0", "orangepi0", "pi3_64", "aarch64", "host"]) v [] _
      (by decide) (by decide) hv (by simp only [checkChoices]; rw [if_neg (by simpa using hc)]; exact rfl))
  · intro hc
    exact (s1 _).trans ((parseTokens_strFlag_sep pBase "--language" "language"
      (some ["python", "cpp"]) v []
      (by decide) (by decide) hv (by simp only [checkChoices]; rw [if_pos hc])).trans (parseTokens_nil _))
  · intro hc
    exact (s1 _).trans (parseTokens_strFlag_sep_bad pBase "--language" "language"
      (some ["python", "cpp"]) v [] _
      (by decide) (by decide) hv (by simp only [checkChoices]; rw [if_neg (by simpa using hc)]; exact rfl))
  · intro hc
    exact (s1 _).trans ((parseTokens_strFlag_sep pBase "--llvm_format" "llvm_format"
      (some ["ir", "bc", "asm", "obj"]) v []
      (by decide) (by decide) hv (by simp only [checkChoices]; rw [if_pos hc])).trans (parseTokens_nil _))
  · intro hc
    exact (s1 _).trans (parseTokens_strFlag_sep_bad pBase "--llvm_format" "llvm_format"
      (some ["ir", "bc", "asm", "obj"]) v [] _
      (by decide) (by decide) hv (by simp only [checkChoices]; rw [if_neg (by simpa using hc)]; exact rfl))
  · intro hc
    exact (s1 _).trans ((parseTokens_strFlag_sep pBase "--optimization_level" "optimization_level"
      (some ["0", "1", "2", "3", "g"]) v []
      (by decide) (by decide) hv (by simp only [checkChoices]; rw [if_pos hc])).trans (parseTokens_nil _))
  · intro hc
    exact (s1 _).trans (parseTokens_strFlag_sep_bad pBase "--optimization_level"
      "optimization_level" (some ["0", "1", "2", "3", "g"]) v [] _
      (by decide) (by decide) hv (by simp only [checkChoices]; rw [if_neg (by simpa using hc)]; exact rfl))
  · intro n hn
    exact (s1 _).trans ((parseTokens_intFlag_sep pBase "--global_value_alignment"
      "global_value_alignment" v n []
      (by decide) (by decide) hv hn).trans (parseTokens_nil _))
  · intro hn
    exact (s1 _).trans (parseTokens_intFlag_sep_bad pBase "--global_value_alignment"
      "global_value_alignment" v []
      (by decide) (by decide) hv hn)

theorem claim6_witness :
    parseTokens ModuleBuilder.defaults ["--model_file", "m.ell", "--target", "pi3"]
      = .ok (setv pBase "target" (.str "pi3"))
    ∧ parseTokens ModuleBuilder.defaults ["--model_file", "m.ell", "--target", "bogus"]
      = .error (.usage ("argument --target: invalid choice: " ++ "bogus"))
    ∧ parseTokens ModuleBuilder.defaults
        ["--model_file", "m.ell", "--global_value_alignment", "64"]
      = .ok (setv pBase "global_value_alignment" (.intv 64))
    ∧ parseTokens ModuleBuilder.defaults
        ["--model_file", "m.ell", "--global_value_alignment", "x"]
      = .error (.usage ("argument --global_value_alignment: invalid int value: " ++ "x")) := by
  have h1 := claim6_flag_values "pi3" (by decide)
  have h2 := claim6_flag_values "bogus" (by decide)
  have h3 := claim6_flag_values "64" (by decide)
  have h4 := claim6_flag_values "x" (by decide)
  exact ⟨h1.2.2.2.2.1.1 (by decide), h2.2.2.2.2.1.2 (by decide),
    h3.2.2.2.2.2.2.2.2.1 64 (by decide), h4.2.2.2.2.2.2.2.2.2 (by decide)⟩

theorem sublist_two_mid (X Y : List RunStep) (a c : RunStep) : [a, c].Sublist (X ++ a :: c :: Y) :=
  (List.Sublist.cons₂ a (List.Sublist.cons₂ c (List.nil_sublist Y))).trans
    (List.sublist_append_right X (a :: c :: Y))

/-- Claim C7: the opt pass runs iff `--no_opt_tool` was not given and the
optimization level is neither 0 nor g (folded into the `no_opt_tool` field
at wrap.py line 283); the llc pass runs iff `--no_llc_tool` was not given;
when both run, opt precedes llc and llc consumes the opt output file (when
opt is skipped, llc consumes the compiler output instead). -/
theorem claim7_opt_llc_conditional (env : ToolEnv) (b : Builder) :
    (runsOpt (ModuleBuilder.run env b) = true ↔ b.no_opt_tool = false)
    ∧ (runsLlc (ModuleBuilder.run env b) = true ↔ b.no_llc_tool = false)
    ∧ (b.no_opt_tool = false → b.no_llc_tool = false →
        [RunStep.optStep env.compileOut (env.optOut env.compileOut) b.optimization_level,
         RunStep.llcStep (env.optOut env.compileOut) b.target b.optimization_level
           ("." ++ b.objext)].Sublist (ModuleBuilder.run env b))
    ∧ (b.no_opt_tool = true → b.no_llc_tool = false →
        RunStep.llcStep env.compileOut b.target b.optimization_level ("." ++ b.objext)
          ∈ ModuleBuilder.run env b)
    ∧ (∀ (isfile : String → Bool) (lv : Bool) (ca : List String) (p : Parsed),
        buildBuilder isfile lv ca p = .ok b →
          (b.no_opt_tool = false ↔
            (getBool p "no_opt_tool" = false ∧ b.optimization_level ≠ "0"
              ∧ b.optimization_level ≠ "g"))
          ∧ b.no_llc_tool = getBool p "no_llc_tool") := by
  refine ⟨?_, ?_, ?_, ?_, ?_⟩
  · cases hswig : b.swig <;> cases hno : b.no_opt_tool <;> cases hllc : b.no_llc_tool <;>
      cases hst : b.stats <;> cases hlang : b.language == "python" <;>
      simp [ModuleBuilder.run, runsOpt, isOptStep, hswig, hno, hllc, hst, hlang]
  · cases hswig : b.swig <;> cases hno : b.no_opt_tool <;> cases hllc : b.no_llc_tool <;>
      cases hst : b.stats <;> cases hlang : b.language == "python" <;>
      simp [ModuleBuilder.run, runsLlc, isLlcStep, hswig, hno, hllc, hst, hlang]
  · intro h1 h2
    simp only [ModuleBuilder.run, h1, h2, Bool.false_eq_true, if_false, List.append_assoc,
      List.singleton_append, List.cons_append, List.nil_append]
    exact List.Sublist.cons _ (List.Sublist.cons _ (List.Sublist.cons _
      (sublist_two_mid _ _ _ _)))
  · intro h1 h2
    simp [ModuleBuilder.run, h1, h2]
  · intro isfile lv ca p h
    obtain ⟨_, _, _, _, _, _, _, _, _, _, _, _, _, hnoopt, hnollc, _, _, _, _, _, _, _, _, _,
      _, _, _⟩ := buildBuilder_fields isfile lv ca p b h
    refine ⟨?_, hnollc⟩
    rw [hnoopt]
    simp [Bool.or_eq_false_iff]

theorem claim7_witness :
    runsOpt (ModuleBuilder.run sampleEnv demoBuilder5) = true
    ∧ runsLlc (ModuleBuilder.run sampleEnv demoBuilder5) = true
    ∧ [RunStep.optStep "model.bc" "model.bc.opt" "3",
       RunStep.llcStep "model.bc.opt" "host" "3" ".o"].Sublist
        (ModuleBuilder.run sampleEnv demoBuilder5) := by
  have h := claim7_opt_llc_conditional sampleEnv demoBuilder5
  exact ⟨h.1.mpr (by decide), h.2.1.mpr (by decide), h.2.2.1 (by decide) (by decide)⟩

/-- Claim C8: the swig step runs iff the selected language is not cpp, and
its argument list carries the platform defines determined by the target:
SWIGWORDSIZE32 and LINUX for pi3, pi0 and orangepi0; SWIGWORDSIZE64 and
LINUX for pi3_64 and aarch64. -/
theorem claim8_swig_conditional (env : ToolEnv) (b : Builder) :
    (runsSwig (ModuleBuilder.run env b) = true ↔ b.swig = true)
    ∧ (b.swig = true →
        RunStep.swigStep b.output_dir b.model_file_base b.language
            (swigArgsFor b.target env.sysPlatform env.maxsize64)
          ∈ ModuleBuilder.run env b)
    ∧ ((b.target = "pi3" ∨ b.target = "pi0" ∨ b.target = "orangepi0") →
        swigArgsFor b.target env.sysPlatform env.maxsize64 = ["-DSWIGWORDSIZE32", "-DLINUX"])
    ∧ ((b.target = "pi3_64" ∨ b.target = "aarch64") →
        swigArgsFor b.target env.sysPlatform env.maxsize64 = ["-DSWIGWORDSIZE64", "-DLINUX"])
    ∧ (∀ (isfile : String → Bool) (lv : Bool) (ca : List String) (p : Parsed),
        buildBuilder isfile lv ca p = .ok b → (b.swig = true ↔ b.language ≠ "cpp")) := by
  refine ⟨?_, ?_, ?_, ?_, ?_⟩
  · cases hswig : b.swig <;> cases hno : b.no_opt_tool <;> cases hllc : b.no_llc_tool <;>
      cases hst : b.stats <;> cases hlang : b.language == "python" <;>
      simp [ModuleBuilder.run, runsSwig, isSwigStep, hswig, hno, hllc, hst, hlang]
  · intro h1
    simp [ModuleBuilder.run, h1]
  · intro h
    rcases h with h | h | h <;> rw [h] <;> rfl
  · intro h
    rcases h with h | h <;> rw [h] <;> rfl
  · intro isfile lv ca p h
    obtain ⟨_, _, _, _, _, _, _, _, _, _, _, _, _, _, _, _, _, _, _, _, _, _, hswig, _, _, _,
      _⟩ := buildBuilder_fields isfile lv ca p b h
    rw [hswig]
    simp [bne_iff_ne]

def demoBuilder8 : Builder :=
  (ModuleBuilder.parse_command_line (fun _ => false) false
    ["--model_file", "m.ell", "--target", "pi3"]).toOption.getD default

theorem claim8_witness :
    runsSwig (ModuleBuilder.run sampleEnv demoBuilder8) = true
    ∧ RunStep.swigStep "pi3" "m" "python" ["-DSWIGWORDSIZE32", "-DLINUX"]
        ∈ ModuleBuilder.run sampleEnv demoBuilder8 := by
  have h := claim8_swig_conditional sampleEnv demoBuilder8
  refine ⟨h.1.mpr (by decide), ?_⟩
  have h2 := h.2.1 (by decide)
  have h3 := h.2.2.1 (by decide)
  rw [show demoBuilder8.output_dir = "pi3" from by decide,
    show demoBuilder8.model_file_base = "m" from by decide,
    show demoBuilder8.language = "python" from by decide, h3] at h2
  exact h2

set_option maxHeartbeats 1000000 in
/-- Claim C9: when the module-name option is omitted or supplied empty,
the model name becomes the base name of the model file path with its
extension removed and every dash replaced by an underscore (wrap.py
lines 260-265). -/
theorem claim9_model_name_default (path : String) (b : Builder) :
    (ModuleBuilder.parse_command_line (fun _ => false) false ["--model_file", path] = .ok b →
      b.model_name = replaceDashUnderscore (os_path_splitext_root (os_path_split_tail path)))
    ∧ (ModuleBuilder.parse_command_line (fun _ => false) false
          ["--model_file", path, "--module_name", ""] = .ok b →
      b.model_name = replaceDashUnderscore (os_path_splitext_root (os_path_split_tail path))) := by
  constructor
  · intro hok
    by_cases hpd : path = "--"
    · subst hpd
      rw [show ModuleBuilder.parse_command_line (fun _ => false) false ["--model_file", "--"]
          = .error (.usage "argument --model_file: expected one argument") from by decide] at hok
      simp at hok
    · have hs1 : (splitArgs ["--model_file", path]).1 = ["--model_file", path] := by
        simp [splitArgs, hpd]
      have hs2 : (splitArgs ["--model_file", path]).2 = [] := by
        simp [splitArgs, hpd]
      by_cases hlo : looksLikeOption path = true
      · rw [ModuleBuilder.parse_command_line, hs1, hs2,
          parseTokens_strFlag_optlike ModuleBuilder.defaults "--model_file" "model_file" none
            path [] (by decide) (by decide) hlo] at hok
        simp at hok
      · have hlo' : looksLikeOption path = false := by simpa using hlo
        have hstep : parseTokens ModuleBuilder.defaults ["--model_file", path]
            = .ok (setv ModuleBuilder.defaults "model_file" (.str path)) :=
          (parseTokens_strFlag_sep ModuleBuilder.defaults "--model_file" "model_file" none path
            [] (by decide) (by decide) hlo' rfl).trans (parseTokens_nil _)
        rw [ModuleBuilder.parse_command_line, hs1, hs2, hstep] at hok
        have hok' : buildBuilder (fun _ => false) false []
            (setv ModuleBuilder.defaults "model_file" (.str path)) = .ok b := hok
        obtain ⟨hm, hbase, hname, _, _, _, _, _, _, _, _, _, _, _, _, _, _, _, _, _, _, _, _,
          _, _, _, _⟩ := buildBuilder_fields _ _ _ _ _ hok'
        have hmn : getOptStr (setv ModuleBuilder.defaults "model_file" (.str path))
            "module_name" = none := by
          rw [getOptStr, getv_setv_ne _ _ _ _ (by decide)]
          exact rfl
        rw [hmn] at hname
        have hname' : b.model_name = replaceDashUnderscore b.model_file_base := hname
        have hmf : b.model_file = path := by
          rw [getv_setv_same] at hm
          exact (Val.str.inj hm).symm
        rw [hname', hbase, hmf]
  · intro hok
    by_cases hpd : path = "--"
    · subst hpd
      rw [show ModuleBuilder.parse_command_line (fun _ => false) false
          ["--model_file", "--", "--module_name", ""]
          = .error (.usage "argument --model_file: expected one argument") from by decide] at hok
      simp at hok
    · have hs1 : (splitArgs ["--model_file", path, "--module_name", ""]).1
          = ["--model_file", path, "--module_name", ""] := by
        simp [splitArgs, hpd]
      have hs2 : (splitArgs ["--model_file", path, "--module_name", ""]).2 = [] := by
        simp [splitArgs, hpd]
      by_cases hlo : looksLikeOption path = true
      · rw [ModuleBuilder.parse_command_line, hs1, hs2,
          parseTokens_strFlag_optlike ModuleBuilder.defaults "--model_file" "model_file" none
            path ["--module_name", ""] (by decide) (by decide) hlo] at hok
        simp at hok
      · have hlo' : looksLikeOption path = false := by simpa using hlo
        have hstep : parseTokens ModuleBuilder.defaults
            ["--model_file", path, "--module_name", ""]
            = .ok (setv (setv ModuleBuilder.defaults "model_file" (.str path)) "module_name"
                (.str "")) :=
          (parseTokens_strFlag_sep ModuleBuilder.defaults "--model_file" "model_file" none path
            ["--module_name", ""] (by decide) (by decide) hlo' rfl).trans
            ((parseTokens_strFlag_sep _ "--module_name" "module_name" none "" []
              (by decide) (by decide) (by decide) rfl).trans (parseTokens_nil _))
        rw [ModuleBuilder.parse_command_line, hs1, hs2, hstep] at hok
        have hok' : buildBuilder (fun _ => false) false []
            (setv (setv ModuleBuilder.defaults "model_file" (.str path)) "module_name"
              (.str "")) = .ok b := hok
        obtain ⟨hm, hbase, hname, _, _, _, _, _, _, _, _, _, _, _, _, _, _, _, _, _, _, _, _,
          _, _, _, _⟩ := buildBuilder_fields _ _ _ _ _ hok'
        have hmn : getOptStr (setv (setv ModuleBuilder.defaults "model_file" (.str path))
            "module_name" (.str "")) "module_name" = some "" := by
          rw [getOptStr, getv_setv_same]
        rw [hmn] at hname
        have hname' : b.model_name = replaceDashUnderscore b.model_file_base := hname
        have hmf : b.model_file = path := by
          rw [getv_setv_ne _ _ _ _ (by decide), getv_setv_same] at hm
          exact (Val.str.inj hm).symm
        rw [hname', hbase, hmf]

def demoBuilder9 : Builder :=
  (ModuleBuilder.parse_command_line (fun _ => false) false
    ["--model_file", "models/my-model.ell"]).toOption.getD default

theorem claim9_witness : demoBuilder9.model_name = "my_model" := by
  have h := (claim9_model_name_default "models/my-model.ell" demoBuilder9).1 (by decide)
  rw [h]
  decide

set_option maxHeartbeats 1000000 in
/-- Claim C10: after a successful parse, disabled optimization forces
parallelize and vectorize to false regardless of their own toggles
(wrap.py lines 285-287); and the blas value yields true exactly when its
lowercased string is yes, true, t or 1, anything else silently yielding
false (wrap.py lines 212-213 and 291). -/
theorem claim10_optimize_blas :
    (∀ (isfile : String → Bool) (lv : Bool) (argv : List String) (b : Builder),
      ModuleBuilder.parse_command_line isfile lv argv = .ok b →
        b.optimize = false → b.parallelize = false ∧ b.vectorize = false)
    ∧ (∀ (v : String) (b : Builder),
        ModuleBuilder.parse_command_line (fun _ => false) false
            ["--model_file", "m.ell", "--blas", v] = .ok b →
          (b.blas = true ↔ ["yes", "true", "t", "1"].contains (pyLower v) = true)) := by
  constructor
  · intro isfile lv argv b hok hopt
    rw [ModuleBuilder.parse_command_line] at hok
    split at hok
    · simp at hok
    · rename_i p hp
      obtain ⟨_, _, _, _, _, _, _, _, _, _, _, _, _, _, _, _, hpar, hvec, _, _, _, _, _, _,
        _, _, _⟩ := buildBuilder_fields isfile lv _ p b hok
      rw [hpar, hvec, hopt]
      simp
  · intro v b hok
    by_cases hpd : v = "--"
    · subst hpd
      rw [show ModuleBuilder.parse_command_line (fun _ => false) false
          ["--model_file", "m.ell", "--blas", "--"]
          = .error (.usage "argument --blas: expected one argument") from by decide] at hok
      simp at hok
    · have hs1 : (splitArgs ["--model_file", "m.ell", "--blas", v]).1
          = ["--model_file", "m.ell", "--blas", v] := by
        simp [splitArgs, hpd]
      have hs2 : (splitArgs ["--model_file", "m.ell", "--blas", v]).2 = [] := by
        simp [splitArgs, hpd]
      by_cases hlo : looksLikeOption v = true
      · have hstep := (parseTokens_strFlag_sep ModuleBuilder.defaults "--model_file"
          "model_file" none "m.ell" ["--blas", v] (by decide) (by decide) (by decide) rfl).trans
          (parseTokens_strFlag_optlike pBase "--blas" "blas" none v []
            (by decide) (by decide) hlo)
        rw [ModuleBuilder.parse_command_line, hs1, hs2, hstep] at hok
        simp at hok
      · have hlo' : looksLikeOption v = false := by simpa using hlo
        have hstep : parseTokens ModuleBuilder.defaults ["--model_file", "m.ell", "--blas", v]
            = .ok (setv pBase "blas" (.str v)) :=
          (parseTokens_strFlag_sep ModuleBuilder.defaults "--model_file" "model_file" none
            "m.ell" ["--blas", v] (by decide) (by decide) (by decide) rfl).trans
            ((parseTokens_strFlag_sep pBase "--blas" "blas" none v []
              (by decide) (by decide) hlo' rfl).trans (parseTokens_nil _))
        rw [ModuleBuilder.parse_command_line, hs1, hs2, hstep] at hok
        have hok' : buildBuilder (fun _ => false) false [] (setv pBase "blas" (.str v))
            = .ok b := hok
        obtain ⟨_, _, _, _, _, _, _, _, _, _, _, _, _, _, _, _, _, _, _, _, _, hblas, _, _,
          _, _, _⟩ := buildBuilder_fields _ _ _ _ _ hok'
        have hbv : getStr (setv pBase "blas" (.str v)) "blas" "true" = v := by
          rw [getStr, getv_setv_same]
        rw [hblas, hbv]
        exact Iff.rfl

def demoBuilder10a : Builder :=
  (ModuleBuilder.parse_command_line (fun _ => false) false
    ["--model_file", "m.ell", "--no_optimize"]).toOption.getD default

def demoBuilder10b : Builder :=
  (ModuleBuilder.parse_command_line (fun _ => false) false
    ["--model_file", "m.ell", "--blas", "oui"]).toOption.getD default

theorem claim10_witness :
    (demoBuilder10a.parallelize = false ∧ demoBuilder10a.vectorize = false)
    ∧ demoBuilder10b.blas = false := by
  constructor
  · exact claim10_optimize_blas.1 (fun _ => false) false
      ["--model_file", "m.ell", "--no_optimize"] demoBuilder10a (by decide) (by decide)
  · have h := claim10_optimize_blas.2 "oui" demoBuilder10b (by decide)
    cases hb : demoBuilder10b.blas
    · rfl
    · exact absurd (h.mp hb) (by decide)
